import Mathlib

/-!
# Verification of the EnergyMeters register-reading core

A shallow embedding of the register address resolution, binary decoding,
unit conversion, category classification and per-unit orchestration logic
of `energy_meter.py` (class `ExcelBasedEnergyMeterReader`), together with
the variant category classifier of `energy_meter_webserver_excel.py`.

Modelling conventions:
* Python decimal values are modelled as exact rationals (`ℚ`);
  `round(x, n)` is modelled as decimal round-half-to-even (the tie-breaking
  rule of Python's `round`), applied to the rational value.
* 16-bit register words are `Nat`s, constrained to `< 65536` by hypotheses
  where it matters (`struct.pack('>H', w)` raises for larger values).
* Python strings are kept as `String`, processed on their character lists;
  `str.lower()` is `Char.toLower` on each character (all unit/type strings
  involved are ASCII, where the two notions agree).
* Fallible steps return `Option`; a caught exception is `none`.
-/

/-- Decimal round-half-to-even to an integer, the tie-breaking behaviour of
Python's built-in `round`, computed on the numerator and denominator:
with `q = n/d` in lowest terms and `d > 0`, the floor is the euclidean
quotient `n / d` with remainder `r = n % d ∈ [0, d)`, and the fractional
part `r/d` is compared against `1/2` via `2r ⋛ d`. -/
def roundHalfEvenZ (q : ℚ) : ℤ :=
  let n := q.num
  let d : ℤ := q.den
  let f := n / d
  let r := n % d
  if 2 * r < d then f
  else if d < 2 * r then f + 1
  else if f % 2 = 0 then f else f + 1

/-- Python `round(q, 3)` on the rational model. -/
def round3 (q : ℚ) : ℚ := (roundHalfEvenZ (q * 1000) : ℚ) / 1000

/-- Python `round(q, 2)` on the rational model. -/
def round2 (q : ℚ) : ℚ := (roundHalfEvenZ (q * 100) : ℚ) / 100

/-- Python's `str.strip()`: drop leading and trailing whitespace. -/
def trimChars (l : List Char) : List Char :=
  ((l.dropWhile Char.isWhitespace).reverse.dropWhile Char.isWhitespace).reverse

/-- `source_unit.lower().replace(' ', '').replace('_', '')` from
`convert_units` (energy_meter.py lines 146-147): lowercase, then remove
every space and underscore (removing a character is `replace` by `''`). -/
def normalizeUnit (u : String) : List Char :=
  (u.toList.map Char.toLower).filter (fun c => !(c == ' ' || c == '_'))

/-- The fixed static conversion table of `convert_units`
(energy_meter.py lines 154-163), keyed by the pair of normalized unit
strings, mapping to the conversion lambda. -/
def conversions : List ((List Char × List Char) × (ℚ → ℚ)) :=
  [ (("tenthofwatts".toList, "kwh".toList), fun x => x / 10000),
    (("w/10".toList, "kwh".toList), fun x => x / 10000),
    (("watts".toList, "kwh".toList), fun x => x / 3600000),
    (("wh".toList, "kwh".toList), fun x => x / 1000),
    (("tenthofwatts".toList, "w".toList), fun x => x / 10),
    (("w/10".toList, "w".toList), fun x => x / 10),
    (("a".toList, "a".toList), fun x => x),
    (("v".toList, "v".toList), fun x => x) ]

/-- `convert_units(self, value, source_unit, target_unit)` of
energy_meter.py (lines 140-172), on a non-`None` value: normalize both
unit names; equal units pass through; otherwise look the ordered pair up
in the static table and round the converted value to 3 decimals; an
unmatched pair passes through unchanged. -/
def convert_units (value : ℚ) (source_unit target_unit : String) : ℚ :=
  let source := normalizeUnit source_unit
  let target := normalizeUnit target_unit
  if source == target then value
  else
    match conversions.lookup (source, target) with
    | some f => round3 (f value)
    | none => value

/-- Modelled from the spec: the factor-aware
`convert_units(self, value, source_unit, target_unit, factor=None)` of the
`EnergyMeterServer` class is not among the provided source files — only its
tests (`test_complete_factor_system.py`, which calls it with four
arguments) and its description (`IMPLEMENTATION_SUMMARY.py`: "Priority:
Factor > Manual conversion rules", "converted_value = raw_value * factor",
"Fallback to existing conversion logic if no factor") are.  Per spec §4.4
priority 1: a present non-null factor yields `decoded * factor`
unconditionally; otherwise the static-rule converter above runs. -/
def convert_units_with_factor (value : ℚ) (source_unit target_unit : String)
    (factor : Option ℚ) : ℚ :=
  match factor with
  | some f => value * f
  | none => convert_units value source_unit target_unit

/-- Float32 word assembly of `read_register_value`
(energy_meter.py lines 192-201): with `high_word = registers[0]` and
`low_word = registers[1]`, the code runs
`struct.pack('>HH', low_word, high_word)` followed by
`struct.unpack('>f', ...)`, so `registers[1]` lands in the
most-significant position of the 32-bit big-endian pattern (despite the
variable names); fewer than 2 words yield `None`. -/
def float32BitsOfWords (registers : List Nat) : Option Nat :=
  match registers with
  | high_word :: low_word :: _ => some (low_word * 65536 + high_word)
  | _ => none

/-- The value of an IEEE754 binary32 bit pattern as a rational:
`none` for the exponent-255 patterns (infinities and NaNs), the exact
rational value otherwise (normal and subnormal). -/
def float32ValQ (b : Nat) : Option ℚ :=
  let s := b / 2147483648 % 2
  let e := b / 8388608 % 256
  let m := b % 8388608
  if e = 255 then none
  else
    let mag : ℚ :=
      if e = 0 then (m : ℚ) / (2 ^ 149 : ℚ)
      else ((8388608 + m : ℕ) : ℚ) * (2 : ℚ) ^ (e : ℤ) / (2 ^ 150 : ℚ)
    some (if s = 1 then -mag else mag)

/-- The Float32 decode path end to end: assemble the word block into the
32-bit pattern and interpret it as an IEEE754 binary32 value. -/
def float32OfWords (registers : List Nat) : Option ℚ :=
  (float32BitsOfWords registers).bind float32ValQ

/-- Int64 decode of `read_register_value` (energy_meter.py lines 203-214):
with `word1..word4 = registers[0..3]`, the code runs
`struct.pack('>HHHH', word4, word3, word2, word1)` followed by
`struct.unpack('>q', ...)`: `registers[3]` is the most significant word and
`registers[0]` the least, read as a two's-complement 64-bit integer;
fewer than 4 words yield `None`. -/
def int64OfWords (registers : List Nat) : Option Int :=
  match registers with
  | word1 :: word2 :: word3 :: word4 :: _ =>
    let u := ((word4 * 65536 + word3) * 65536 + word2) * 65536 + word1
    some (if u < 9223372036854775808 then (u : Int) else (u : Int) - 18446744073709551616)
  | _ => none

/-- Encode a 64-bit signed integer into the four-word layout the decoder
expects: least-significant word first (`w0` at index 0, `w3` most
significant), each word 16 bits of the two's-complement representation. -/
def encodeInt64Words (n : Int) : List Nat :=
  let u := (n.emod 18446744073709551616).toNat
  [u % 65536, u / 65536 % 65536, u / 65536 / 65536 % 65536,
   u / 65536 / 65536 / 65536 % 65536]

/-- `data_type.lower()` as a character list. -/
def lowerChars (s : String) : List Char := s.toList.map Char.toLower

/-- Python's substring test `needle in haystack`. -/
def containsSub (needle : List Char) : List Char → Bool
  | [] => needle.isEmpty
  | c :: t => needle.isPrefixOf (c :: t) || containsSub needle t

/-- The data-type tags of the spec's data model.  The source has no named
type; its three branches on the raw tag string are
`data_type.lower() == 'float'`, `'long long' in data_type.lower()`, and
the default. -/
inductive DataTypeTag where
  | Float32
  | Int64Scaled
  | Unknown
deriving DecidableEq

/-- The branch taken by the source for a raw data-type string
(energy_meter.py lines 110-118 and 192-222): exact match `'float'` first,
then substring `'long long'`, else the default branch (spec: `Unknown`). -/
def classifyTag (data_type : String) : DataTypeTag :=
  if lowerChars data_type = "float".toList then .Float32
  else if containsSub "long long".toList (lowerChars data_type) then .Int64Scaled
  else .Unknown

/-- The Address Resolver (energy_meter.py lines 109-118): from the end
address and data-type string to `(startAddress, wordCount)`.
`float` ⇒ 2 words, start = end-1; `long long` ⇒ 4 words, start = end-3;
anything else falls back to the float rule. -/
def resolveRegister (end_address : Int) (data_type : String) : Int × Nat :=
  if lowerChars data_type = "float".toList then (end_address - 1, 2)
  else if containsSub "long long".toList (lowerChars data_type) then (end_address - 3, 4)
  else (end_address - 1, 2)

/-- `.replace(' ', '_').replace('/', '_')` on one character. -/
def replSlashSpace (c : Char) : Char :=
  if c = ' ' ∨ c = '/' then '_' else c

/-- The category computation of energy_meter.py (lines 104-108): with a
present `Type` tag, `str(row['Type']).strip().replace(' ', '_').replace('/', '_').lower()`;
otherwise the same normalization of the description
(`row['Lettura']`).  No plural→singular rewrites in this file. -/
def categoryOf_energyMeter : Option String → String → String
  | some t, _ => String.mk (((trimChars t.toList).map replSlashSpace).map Char.toLower)
  | none, description =>
    String.mk (((trimChars description.toList).map replSlashSpace).map Char.toLower)

/-- The category computation of energy_meter_webserver_excel.py
(lines 114-125): with a present `Type` tag,
`str(row['Type']).strip().lower()` then `.replace(' ', '_').replace('/', '_')`,
then the plural→singular rewrites `currents`→`current`,
`voltages`→`voltage`, `power_factors`→`power_factor`; otherwise the
normalized description, without rewrites. -/
def categoryOf_webserverExcel : Option String → String → String
  | some t, _ =>
    let c := ((trimChars t.toList).map Char.toLower).map replSlashSpace
    if c = "currents".toList then "current"
    else if c = "voltages".toList then "voltage"
    else if c = "power_factors".toList then "power_factor"
    else String.mk c
  | none, description =>
    String.mk (((trimChars description.toList).map replSlashSpace).map Char.toLower)

/-- Restatement of the spec's words for the Category Classifier's
normalization step (§4.5: "normalize (lowercase; replace spaces/slashes
with underscore)"), for comparison with the two source classifiers. -/
def specNormalizeCategory (s : String) : String :=
  String.mk (((trimChars s.toList).map replSlashSpace).map Char.toLower)

/-- Restatement of the spec's words for the Category Classifier's known
plural→singular rewrites (§4.5). -/
def specPluralRewrite (s : String) : String :=
  if s = "currents" then "current"
  else if s = "voltages" then "voltage"
  else if s = "power_factors" then "power_factor"
  else s

/-- One pre-parsed configuration row of `registri.xlsx` as the loader
reads it.  `report`/`readings`/`convertTo`/`typeTag` are `none` when
the column is absent (or, for `typeTag`, the cell is NaN, `pd.notna`);
`registro = none` models a missing or non-integer `Registro` cell, where
`int(row['Registro'])` raises.  `str()` of the remaining cells always
succeeds, so they are plain strings. -/
structure ConfigRow where
  report : Option String
  registro : Option Int
  lettura : String
  lenght : String
  readings : Option String
  convertTo : Option String
  typeTag : Option String
deriving DecidableEq

/-- One loaded register definition, the dict stored at
`registers[start_address]` (energy_meter.py lines 120-129). -/
structure RegisterInfo where
  description : String
  data_type : String
  register_count : Nat
  start_address : Int
  end_address : Int
  source_unit : String
  target_unit : String
  category : String
deriving DecidableEq

/-- `str(row['Report']).strip().lower() if 'Report' in row else 'yes'`,
then membership in `['yes', 'y', '1', 'true']`
(energy_meter.py lines 95-96). -/
def reportEnabled (report : Option String) : Bool :=
  let report_status := match report with
    | some s => (trimChars s.toList).map Char.toLower
    | none => "yes".toList
  report_status ∈ ["yes".toList, "y".toList, "1".toList, "true".toList]

/-- The row loop of `load_registers_from_excel`
(energy_meter.py lines 93-131), with the accumulated register sequence
made explicit.  A row whose report flag fails the filter is skipped with
the loop continuing; a row whose `Registro` cell is missing or
non-integer raises, the exception escapes the loop and the surrounding
`except` returns `{}` — so the whole load, accumulator included, becomes
empty.  The Python stores rows in a dict keyed by start address; the
model keeps the insertion sequence as a list. -/
def loadRows : List ConfigRow → List (Int × RegisterInfo) → List (Int × RegisterInfo)
  | [], acc => acc
  | row :: rest, acc =>
    if reportEnabled row.report then
      match row.registro with
      | none => []
      | some end_address =>
        let description := row.lettura
        let data_type := row.lenght
        let source_unit := row.readings.getD ""
        let target_unit := row.convertTo.getD source_unit
        let category := categoryOf_energyMeter row.typeTag description
        let rc := resolveRegister end_address data_type
        loadRows rest (acc ++ [(rc.1,
          { description := description, data_type := data_type,
            register_count := rc.2, start_address := rc.1,
            end_address := end_address, source_unit := source_unit,
            target_unit := target_unit, category := category })])
    else loadRows rest acc

/-- `load_registers_from_excel` of energy_meter.py on the pre-parsed row
sequence: run the row loop with an empty accumulator. -/
def load_registers_from_excel (rows : List ConfigRow) : List (Int × RegisterInfo) :=
  loadRows rows []

/-- The value field of one register entry of the per-unit record: a
number, or the `'N/A'` marker used for failed reads. -/
inductive RegValue where
  | num (q : ℚ)
  | na
deriving DecidableEq

/-- One register entry of the per-unit record
(energy_meter.py lines 275-289). -/
structure RegisterEntry where
  description : String
  value : RegValue
  unit : String
  status : String
  category : String
deriving DecidableEq

/-- The per-unit record: the unit-level status string and the register
entries keyed by `"reg_<start_address>"`, in configuration order.  The
source dict also carries verbatim copies of the utility's id, name,
cabinet, node and ip plus a wall-clock timestamp; those fields are
untouched by the reading logic and are omitted. -/
structure UtilityData where
  status : String
  registers : List (String × RegisterEntry)
deriving DecidableEq

/-- `read_register_value` (energy_meter.py lines 174-235) relative to an
abstract raw-decode outcome: the transport request and the word-block
decode of §4.2-§4.3 (whose bit-level algorithms are `float32OfWords` and
`int64OfWords` above) produce either a raw value or `None`; every
exception inside the function is caught and becomes `None`
(lines 233-235).  On a raw value the function returns
`convert_units(raw_value, source_unit, target_unit)`. -/
def read_register_value (raw : Option ℚ) (register_info : RegisterInfo) : Option ℚ :=
  match raw with
  | some raw_value => some (convert_units raw_value register_info.source_unit register_info.target_unit)
  | none => none

/-- The body of the register loop of `read_single_utility`
(energy_meter.py lines 269-302): a successful read appends an `OK` entry
whose value is `round(value, 2)` (decoded values are Python floats on
every success path, so the `isinstance(value, float)` guard holds); a
failed read appends a `status='ERROR', value='N/A'` entry and downgrades
the unit status to `PARTIAL`.  `read_register_value` never raises (it
catches internally), so the loop's own `except` arm is unreachable. -/
def readStep (raw : Int → Option ℚ) (acc : UtilityData) (p : Int × RegisterInfo) : UtilityData :=
  let register_key := "reg_" ++ toString p.1
  match read_register_value (raw p.1) p.2 with
  | some value =>
    { status := acc.status,
      registers := acc.registers ++ [(register_key,
        { description := p.2.description, value := .num (round2 value),
          unit := p.2.target_unit, status := "OK", category := p.2.category })] }
  | none =>
    { status := "PARTIAL",
      registers := acc.registers ++ [(register_key,
        { description := p.2.description, value := .na,
          unit := p.2.target_unit, status := "ERROR", category := p.2.category })] }

/-- `read_single_utility` (energy_meter.py lines 237-314): if the session
connection fails the record is returned immediately with status
`'CONNECTION_FAILED'` (the spec's unit-level `FAILED`) and no register
attempted; otherwise the record starts at status `'OK'` and the register
loop runs over the configuration in order. -/
def read_single_utility (connected : Bool) (registers_config : List (Int × RegisterInfo))
    (raw : Int → Option ℚ) : UtilityData :=
  if connected then
    registers_config.foldl (readStep raw) { status := "OK", registers := [] }
  else
    { status := "CONNECTION_FAILED", registers := [] }

/-- The entry the register loop produces for one configured register,
as a function of that register's raw-decode outcome alone; used to state
that the record is the pointwise image of the configuration. -/
def regEntryFor (raw : Int → Option ℚ) (p : Int × RegisterInfo) : String × RegisterEntry :=
  match read_register_value (raw p.1) p.2 with
  | some value =>
    ("reg_" ++ toString p.1,
      { description := p.2.description, value := .num (round2 value),
        unit := p.2.target_unit, status := "OK", category := p.2.category })
  | none =>
    ("reg_" ++ toString p.1,
      { description := p.2.description, value := .na,
        unit := p.2.target_unit, status := "ERROR", category := p.2.category })

/-- A five-register demonstration configuration (identity units, so the
converter's equal-units path applies). -/
def demoInfo (d : String) (sa : Int) : RegisterInfo :=
  { description := d, data_type := "float", register_count := 2,
    start_address := sa, end_address := sa + 1, source_unit := "V",
    target_unit := "V", category := "voltage" }

/-- Five enabled registers at start addresses 100, 102, 104, 106, 108. -/
def demoConfig : List (Int × RegisterInfo) :=
  [(100, demoInfo "R1" 100), (102, demoInfo "R2" 102), (104, demoInfo "R3" 104),
   (106, demoInfo "R4" 106), (108, demoInfo "R5" 108)]

/-- A raw-decode oracle where the third register's read fails and every
other read returns 42. -/
def demoRaw : Int → Option ℚ :=
  fun sa => if sa = 104 then none else some 42

/-- A raw-decode oracle where every read succeeds with value 42. -/
def demoRawAll : Int → Option ℚ := fun _ => some 42

/-- A single-register configuration converting `Wh` readings to `kWh`. -/
def demoInfoWh : RegisterInfo :=
  { description := "Energy", data_type := "float", register_count := 2,
    start_address := 300, end_address := 301, source_unit := "Wh",
    target_unit := "kWh", category := "energy" }

/-- A valid configuration row: enabled, end address 400, float type. -/
def rowGood : ConfigRow :=
  { report := some "Yes", registro := some 400, lettura := "Voltage L1",
    lenght := "float", readings := some "V", convertTo := some "V",
    typeTag := none }

/-- A row that is enabled for reporting but whose `Registro` cell is
missing, so `int(row['Registro'])` raises. -/
def rowBad : ConfigRow :=
  { report := some "Yes", registro := none, lettura := "Current L1",
    lenght := "float", readings := some "A", convertTo := some "A",
    typeTag := none }

/-- A row whose report flag disables it. -/
def rowOff : ConfigRow :=
  { report := some "No", registro := some 500, lettura := "Spare",
    lenght := "float", readings := some "V", convertTo := some "V",
    typeTag := none }

/-- The register definition the loader produces from `rowGood`. -/
def rowGoodInfo : RegisterInfo :=
  { description := "Voltage L1", data_type := "float", register_count := 2,
    start_address := 399, end_address := 400, source_unit := "V",
    target_unit := "V", category := "voltage_l1" }

/-- A raw-decode oracle that always returns 1234. -/
def demoRawWh : Int → Option ℚ := fun _ => some 1234

/-! ## Helper lemmas -/

theorem mk_eq_lit (L : List Char) (s : String) : String.mk L = s ↔ L = s.toList := by
  constructor
  · intro h; subst h; rfl
  · intro h; subst h; rfl

theorem toLower_replSlashSpace_comm (c : Char) :
    Char.toLower (replSlashSpace c) = replSlashSpace (Char.toLower c) := by
  by_cases hs : c = ' '
  · subst hs; decide
  by_cases hd : c = '/'
  · subst hd; decide
  have hrepl : replSlashSpace c = c := by simp [replSlashSpace, hs, hd]
  rw [hrepl]
  by_cases h : 65 ≤ c.toNat ∧ c.toNat ≤ 90
  · obtain ⟨h1, h2⟩ := h
    have hc : c = Char.ofNat c.toNat := (Char.ofNat_toNat c).symm
    generalize hn : c.toNat = n at h1 h2 hc
    rw [hc]
    interval_cases n <;> decide
  · have hl : Char.toLower c = c := by
      simp only [Char.toLower]
      rw [if_neg]
      intro hh
      exact h ⟨hh.1, hh.2⟩
    rw [hl, hrepl]

theorem maps_comm (l : List Char) :
    (l.map Char.toLower).map replSlashSpace = (l.map replSlashSpace).map Char.toLower := by
  induction l with
  | nil => rfl
  | cons c t ih => simp only [List.map_cons, ih, ← toLower_replSlashSpace_comm]

theorem readStep_registers (raw : Int → Option ℚ) (acc : UtilityData) (p : Int × RegisterInfo) :
    (readStep raw acc p).registers = acc.registers ++ [regEntryFor raw p] := by
  unfold readStep regEntryFor
  cases read_register_value (raw p.1) p.2 <;> rfl

theorem readStep_status (raw : Int → Option ℚ) (acc : UtilityData) (p : Int × RegisterInfo) :
    (readStep raw acc p).status = if (raw p.1).isSome then acc.status else "PARTIAL" := by
  unfold readStep read_register_value
  cases raw p.1 <;> rfl

theorem foldl_readStep_registers (raw : Int → Option ℚ) (l : List (Int × RegisterInfo)) :
    ∀ acc : UtilityData,
      (List.foldl (readStep raw) acc l).registers = acc.registers ++ l.map (regEntryFor raw) := by
  induction l with
  | nil => intro acc; simp
  | cons p t ih =>
    intro acc
    rw [List.foldl_cons, ih, readStep_registers, List.map_cons]
    simp

theorem foldl_readStep_status (raw : Int → Option ℚ) (l : List (Int × RegisterInfo)) :
    ∀ acc : UtilityData,
      (List.foldl (readStep raw) acc l).status =
        if l.all (fun p => (raw p.1).isSome) then acc.status else "PARTIAL" := by
  induction l with
  | nil => intro acc; simp
  | cons p t ih =>
    intro acc
    rw [List.foldl_cons, ih, readStep_status]
    cases h : raw p.1 with
    | none => simp [h, List.all_cons]
    | some v =>
      simp only [List.all_cons, h, Option.isSome_some, Bool.true_and, if_true]

theorem read_single_utility_registers (config : List (Int × RegisterInfo)) (raw : Int → Option ℚ) :
    (read_single_utility true config raw).registers = config.map (regEntryFor raw) := by
  unfold read_single_utility
  rw [if_pos rfl, foldl_readStep_registers]
  rfl

theorem read_single_utility_status (config : List (Int × RegisterInfo)) (raw : Int → Option ℚ) :
    (read_single_utility true config raw).status =
      if config.all (fun p => (raw p.1).isSome) then "OK" else "PARTIAL" := by
  unfold read_single_utility
  rw [if_pos rfl, foldl_readStep_status]

/-! ## Claim theorems -/

/-- C1: whenever a factor is present and non-null, the Unit Converter
returns `decoded * factor`, unconditionally and independently of the
source and target unit strings; in particular factor 0.01 on decoded 2500
yields 25.0 — both for the claim's pair "A/100"→"A" and for "Wh"→"kWh",
where the static table would otherwise apply its ÷1000 rule. -/
theorem C1_factor_priority :
    (∀ (v f : ℚ) (s t : String), convert_units_with_factor v s t (some f) = v * f)
    ∧ convert_units_with_factor 2500 "A/100" "A" (some (1/100)) = 25
    ∧ convert_units_with_factor 2500 "Wh" "kWh" (some (1/100)) = 25
    ∧ convert_units 2500 "Wh" "kWh" = round3 (2500 / 1000) := by
  refine ⟨fun v f s t => rfl, ?_, ?_, rfl⟩
  · norm_num [convert_units_with_factor]
  · norm_num [convert_units_with_factor]

/-- C2: assembling the two returned words with the second word as the
high 16 bits and the first as the low 16 bits is a left inverse of
splitting a 32-bit pattern low-word-first, so the Float32 decode returns
exactly the encoded value; the two-word encoding of 230.5
(`[0x8000, 0x4366]`) decodes to 230.5. -/
theorem C2_float32_roundtrip :
    (∀ b : Nat, b < 4294967296 →
      float32BitsOfWords [b % 65536, b / 65536] = some b)
    ∧ (∀ b : Nat, b < 4294967296 →
      float32OfWords [b % 65536, b / 65536] = float32ValQ b)
    ∧ float32OfWords [32768, 17254] = some (461/2) := by
  have hbits : ∀ b : Nat, float32BitsOfWords [b % 65536, b / 65536] = some b := by
    intro b
    simp only [float32BitsOfWords, Option.some.injEq]
    omega
  refine ⟨fun b _ => hbits b, fun b _ => ?_, ?_⟩
  · unfold float32OfWords
    rw [hbits b]
    rfl
  · have h : float32OfWords [32768, 17254] = float32ValQ 1130790912 := rfl
    rw [h]
    norm_num [float32ValQ]

/-- C2 witness at the bit pattern of 230.5. -/
theorem C2_witness :
    (1130790912 : Nat) < 4294967296
    ∧ float32BitsOfWords [1130790912 % 65536, 1130790912 / 65536] = some 1130790912
    ∧ float32OfWords [1130790912 % 65536, 1130790912 / 65536] = float32ValQ 1130790912 :=
  ⟨by norm_num, C2_float32_roundtrip.1 1130790912 (by norm_num),
    C2_float32_roundtrip.2.1 1130790912 (by norm_num)⟩

/-- C3: the Int64Scaled decode assembles the four returned words
most-significant-first as `(w3, w2, w1, w0)` into a big-endian
two's-complement 64-bit integer, so decoding the four-word encoding of
any 64-bit signed integer returns exactly that integer. -/
theorem C3_int64_roundtrip :
    ∀ n : Int, -9223372036854775808 ≤ n → n < 9223372036854775808 →
      int64OfWords (encodeInt64Words n) = some n := by
  intro n h1 h2
  rcases le_or_lt 0 n with hpos | hneg
  · have he : n.emod 18446744073709551616 = n := Int.emod_eq_of_lt hpos (by omega)
    simp only [encodeInt64Words, int64OfWords, he]
    split <;> · simp only [Option.some.injEq]; omega
  · have h3 : (n + 18446744073709551616).emod 18446744073709551616 =
        n + 18446744073709551616 :=
      Int.emod_eq_of_lt (by omega) (by omega)
    have h4 : (n + 1 * 18446744073709551616).emod 18446744073709551616 =
        n.emod 18446744073709551616 :=
      Int.add_mul_emod_self
    rw [one_mul] at h4
    have he : n.emod 18446744073709551616 = n + 18446744073709551616 := by rw [← h4, h3]
    simp only [encodeInt64Words, int64OfWords, he]
    split <;> · simp only [Option.some.injEq]; omega

/-- C3 witness at -123456789012. -/
theorem C3_witness :
    (-9223372036854775808 : Int) ≤ -123456789012
    ∧ (-123456789012 : Int) < 9223372036854775808
    ∧ int64OfWords (encodeInt64Words (-123456789012)) = some (-123456789012) :=
  ⟨by norm_num, by norm_num,
    C3_int64_roundtrip (-123456789012) (by norm_num) (by norm_num)⟩

/-- C4: a failed read of one register is recorded as a
`status='ERROR', value='N/A'` entry for that register only — the record
still has one entry per enabled definition, each entry depends only on
its own register's outcome, the unit status drops to `PARTIAL` — and in
the concrete five-register run whose third read fails the record has
4 `OK` entries, 1 `ERROR` entry and status `PARTIAL`. -/
theorem C4_failure_isolation :
    (∀ (config : List (Int × RegisterInfo)) (raw : Int → Option ℚ),
      (read_single_utility true config raw).registers.length = config.length)
    ∧ (∀ (config : List (Int × RegisterInfo)) (raw : Int → Option ℚ)
        (i : Nat) (sa : Int) (info : RegisterInfo),
        config[i]? = some (sa, info) → raw sa = none →
        (read_single_utility true config raw).registers[i]? =
          some ("reg_" ++ toString sa,
            { description := info.description, value := RegValue.na,
              unit := info.target_unit, status := "ERROR", category := info.category })
        ∧ (read_single_utility true config raw).status = "PARTIAL")
    ∧ (∀ (config : List (Int × RegisterInfo)) (raw raw' : Int → Option ℚ)
        (i : Nat) (sa : Int) (info : RegisterInfo),
        config[i]? = some (sa, info) → raw sa = raw' sa →
        (read_single_utility true config raw).registers[i]? =
          (read_single_utility true config raw').registers[i]?)
    ∧ ((read_single_utility true demoConfig demoRaw).registers.countP
        (fun p => p.2.status == "OK") = 4
      ∧ (read_single_utility true demoConfig demoRaw).registers.countP
        (fun p => p.2.status == "ERROR") = 1
      ∧ (read_single_utility true demoConfig demoRaw).status = "PARTIAL") := by
  refine ⟨?_, ?_, ?_, ?_, ?_, ?_⟩
  · intro config raw
    rw [read_single_utility_registers, List.length_map]
  · intro config raw i sa info hcfg hraw
    constructor
    · rw [read_single_utility_registers, List.getElem?_map, hcfg]
      simp [regEntryFor, read_register_value, hraw]
    · rw [read_single_utility_status, if_neg]
      intro hall
      rw [List.all_eq_true] at hall
      have hmem : (sa, info) ∈ config := List.getElem?_mem hcfg
      have := hall _ hmem
      simp [hraw] at this
  · intro config raw raw' i sa info hcfg hagree
    rw [read_single_utility_registers, read_single_utility_registers,
      List.getElem?_map, List.getElem?_map, hcfg]
    simp only [Option.map_some']
    unfold regEntryFor
    rw [show (sa, info).1 = sa from rfl, hagree]
  · simp [read_single_utility, demoConfig, readStep, read_register_value, demoRaw,
      List.countP, List.countP.go, demoInfo]
  · simp [read_single_utility, demoConfig, readStep, read_register_value, demoRaw,
      List.countP, List.countP.go, demoInfo]
  · simp [read_single_utility, demoConfig, readStep, read_register_value, demoRaw, demoInfo]

/-- C4 witness: the five-register demo configuration with the third read
failing. -/
theorem C4_witness :
    demoConfig[2]? = some (104, demoInfo "R3" 104)
    ∧ demoRaw 104 = none
    ∧ ((read_single_utility true demoConfig demoRaw).registers[2]? =
        some ("reg_" ++ toString (104 : Int),
          { description := (demoInfo "R3" 104).description, value := RegValue.na,
            unit := (demoInfo "R3" 104).target_unit, status := "ERROR",
            category := (demoInfo "R3" 104).category })
      ∧ (read_single_utility true demoConfig demoRaw).status = "PARTIAL") :=
  ⟨by decide, by decide,
    C4_failure_isolation.2.1 demoConfig demoRaw 2 104 (demoInfo "R3" 104) (by decide) (by decide)⟩

/-- C5: unit-level status is `OK` when no register read fails, `PARTIAL`
when some succeed and some fail, and the connection-failure status
(`'CONNECTION_FAILED'`, the spec's `FAILED`) is produced exactly when the
session connection could not be established — in which case no register
is attempted. -/
theorem C5_unit_status :
    (∀ (config : List (Int × RegisterInfo)) (raw : Int → Option ℚ),
      (∀ p ∈ config, (raw p.1).isSome) →
      (read_single_utility true config raw).status = "OK")
    ∧ (∀ (config : List (Int × RegisterInfo)) (raw : Int → Option ℚ),
      (∃ p ∈ config, (raw p.1).isSome) → (∃ p ∈ config, raw p.1 = none) →
      (read_single_utility true config raw).status = "PARTIAL")
    ∧ (∀ (config : List (Int × RegisterInfo)) (raw : Int → Option ℚ),
      read_single_utility false config raw =
        { status := "CONNECTION_FAILED", registers := [] })
    ∧ (∀ (config : List (Int × RegisterInfo)) (raw : Int → Option ℚ) (connected : Bool),
      (read_single_utility connected config raw).status = "CONNECTION_FAILED" →
      connected = false) := by
  refine ⟨?_, ?_, fun config raw => rfl, ?_⟩
  · intro config raw hall
    rw [read_single_utility_status, if_pos]
    rw [List.all_eq_true]
    intro p hp
    exact hall p hp
  · intro config raw _ hfail
    rw [read_single_utility_status, if_neg]
    intro hall
    rw [List.all_eq_true] at hall
    obtain ⟨p, hp, hnone⟩ := hfail
    have := hall p hp
    simp [hnone] at this
  · intro config raw connected h
    cases connected with
    | false => rfl
    | true =>
      rw [read_single_utility_status] at h
      split at h <;> exact absurd h (by decide)

/-- C5 witness: all-success gives `OK`, the mixed demo run gives
`PARTIAL`, and a failed connection gives the `FAILED` status with no
register attempted. -/
theorem C5_witness :
    ((∀ p ∈ demoConfig, (demoRawAll p.1).isSome)
      ∧ (read_single_utility true demoConfig demoRawAll).status = "OK")
    ∧ ((∃ p ∈ demoConfig, (demoRaw p.1).isSome) ∧ (∃ p ∈ demoConfig, demoRaw p.1 = none)
      ∧ (read_single_utility true demoConfig demoRaw).status = "PARTIAL")
    ∧ ((read_single_utility false demoConfig demoRaw).status = "CONNECTION_FAILED"
      ∧ false = false) :=
  ⟨⟨by decide, C5_unit_status.1 demoConfig demoRawAll (by decide)⟩,
    ⟨by decide, by decide, C5_unit_status.2.1 demoConfig demoRaw (by decide) (by decide)⟩,
    ⟨rfl, C5_unit_status.2.2.2 demoConfig demoRaw false rfl⟩⟩

/-- C6: the Address Resolver maps a Float32 tag to `(end-1, 2)`, an
Int64Scaled tag to `(end-3, 4)`, and any other tag to the Float32 rule
`(end-1, 2)`. -/
theorem C6_address_resolution :
    ∀ (e : Int) (dt : String),
      (classifyTag dt = DataTypeTag.Float32 → resolveRegister e dt = (e - 1, 2))
      ∧ (classifyTag dt = DataTypeTag.Int64Scaled → resolveRegister e dt = (e - 3, 4))
      ∧ (classifyTag dt = DataTypeTag.Unknown → resolveRegister e dt = (e - 1, 2)) := by
  intro e dt
  unfold classifyTag resolveRegister
  split_ifs <;> refine ⟨fun h => ?_, fun h => ?_, fun h => ?_⟩ <;> simp_all

/-- C6 witness at the three concrete tags "Float", "Signed long long"
and "word". -/
theorem C6_witness :
    (classifyTag "Float" = DataTypeTag.Float32
      ∧ resolveRegister 400 "Float" = (400 - 1, 2))
    ∧ (classifyTag "Signed long long" = DataTypeTag.Int64Scaled
      ∧ resolveRegister 500 "Signed long long" = (500 - 3, 4))
    ∧ (classifyTag "word" = DataTypeTag.Unknown
      ∧ resolveRegister 600 "word" = (600 - 1, 2)) :=
  ⟨⟨by decide, (C6_address_resolution 400 "Float").1 (by decide)⟩,
    ⟨by decide, (C6_address_resolution 500 "Signed long long").2.1 (by decide)⟩,
    ⟨by decide, (C6_address_resolution 600 "word").2.2 (by decide)⟩⟩

/-- C7: with no factor and distinct normalized units, the converter
applies the static table — tenth-of-watt→kWh divides by 10000,
watt→kWh by 3600000, Wh→kWh by 1000, tenth-of-watt→W by 10, A→A and V→V
are identities — rounding table results to 3 decimals; decoded 50000
from "Tenth of watts" to "Kwh" yields 5.0. -/
theorem C7_static_conversion :
    (∀ v : ℚ, convert_units v "Tenth of watts" "Kwh" = round3 (v / 10000))
    ∧ (∀ v : ℚ, convert_units v "Watts" "kWh" = round3 (v / 3600000))
    ∧ (∀ v : ℚ, convert_units v "Wh" "kWh" = round3 (v / 1000))
    ∧ (∀ v : ℚ, convert_units v "Tenth of watts" "W" = round3 (v / 10))
    ∧ (∀ v : ℚ, convert_units v "A" "A" = v)
    ∧ (∀ v : ℚ, convert_units v "V" "V" = v)
    ∧ convert_units 50000 "Tenth of watts" "Kwh" = 5 := by
  refine ⟨fun v => rfl, fun v => rfl, fun v => rfl, fun v => rfl, fun v => rfl, fun v => rfl, ?_⟩
  have h : convert_units 50000 "Tenth of watts" "Kwh" = round3 (50000 / 10000) := rfl
  rw [h]
  norm_num [round3, roundHalfEvenZ]

/-- C8: the reporting filter does skip disabled rows and continue, but a
row with a missing required field does not merely get skipped — the
exception escapes the row loop and the load returns the empty table,
discarding every valid row of the sequence (here `rowGood` loads fine on
its own and after a disabled row, but the whole load is empty when the
invalid `rowBad` precedes it). -/
theorem C8_row_abort :
    load_registers_from_excel [rowBad, rowGood] = []
    ∧ load_registers_from_excel [rowGood] = [(399, rowGoodInfo)]
    ∧ load_registers_from_excel [rowOff, rowGood] = [(399, rowGoodInfo)] := by
  decide

/-- C9 counterexample: energy_meter.py's classifier (also cited by the
claim) does not apply the plural→singular rewrites: the present tag
"Currents" yields "currents", not the "current" the claim requires. -/
theorem C9_counterexample :
    categoryOf_energyMeter (some "Currents") "Current L1" = "currents"
    ∧ specPluralRewrite (specNormalizeCategory "Currents") = "current"
    ∧ ("currents" : String) ≠ "current" := by
  decide

/-- C9 (amended): the webserver_excel classifier returns the normalized
tag (lowercase, spaces/slashes→underscore) with the plural→singular
rewrites applied; the energy_meter.py classifier returns the normalized
tag without rewrites; with the tag absent both return the normalized
description, without rewrites. -/
theorem C9_category_classifier :
    ∀ (t d : String),
      categoryOf_webserverExcel (some t) d = specPluralRewrite (specNormalizeCategory t)
      ∧ categoryOf_energyMeter (some t) d = specNormalizeCategory t
      ∧ categoryOf_webserverExcel none d = specNormalizeCategory d
      ∧ categoryOf_energyMeter none d = specNormalizeCategory d := by
  intro t d
  refine ⟨?_, rfl, rfl, rfl⟩
  simp only [categoryOf_webserverExcel, specNormalizeCategory, specPluralRewrite]
  rw [maps_comm]
  simp only [mk_eq_lit]

/-- C10: a successfully read register is stored with value
`round(converted, 2)` (the converted value is always a Python float on
the success path), so the record never exposes more than 2 decimals;
e.g. the converter turns 1234 Wh into 1.234 kWh and the record stores
1.23. -/
theorem C10_record_rounding :
    (∀ (config : List (Int × RegisterInfo)) (raw : Int → Option ℚ)
      (i : Nat) (sa : Int) (info : RegisterInfo) (v : ℚ),
      config[i]? = some (sa, info) → raw sa = some v →
      (read_single_utility true config raw).registers[i]? =
        some ("reg_" ++ toString sa,
          { description := info.description,
            value := RegValue.num (round2 (convert_units v info.source_unit info.target_unit)),
            unit := info.target_unit, status := "OK", category := info.category }))
    ∧ (∀ q : ℚ, ∃ k : ℤ, round2 q = (k : ℚ) / 100)
    ∧ convert_units 1234 "Wh" "kWh" = 617/500
    ∧ round2 (617/500) = 123/100 := by
  refine ⟨?_, fun q => ⟨roundHalfEvenZ (q * 100), rfl⟩, ?_, ?_⟩
  · intro config raw i sa info v hcfg hraw
    rw [read_single_utility_registers, List.getElem?_map, hcfg]
    simp [regEntryFor, read_register_value, hraw]
  · have h : convert_units 1234 "Wh" "kWh" = round3 (1234 / 1000) := rfl
    rw [h]
    norm_num [round3, roundHalfEvenZ]
  · norm_num [round2, roundHalfEvenZ]

/-- C10 witness: one Wh→kWh register read successfully with raw value
1234. -/
theorem C10_witness :
    [((300 : Int), demoInfoWh)][0]? = some (300, demoInfoWh)
    ∧ demoRawWh 300 = some 1234
    ∧ (read_single_utility true [(300, demoInfoWh)] demoRawWh).registers[0]? =
        some ("reg_" ++ toString (300 : Int),
          { description := demoInfoWh.description,
            value := RegValue.num (round2 (convert_units 1234 demoInfoWh.source_unit demoInfoWh.target_unit)),
            unit := demoInfoWh.target_unit, status := "OK",
            category := demoInfoWh.category }) :=
  ⟨rfl, rfl,
    C10_record_rounding.1 [(300, demoInfoWh)] demoRawWh 0 300 demoInfoWh 1234 rfl rfl⟩

